import Mathlib

/-!
Shallow embedding of the influxdb-rust client library:
query builders (`src/query/mod.rs`, `src/query/write_query.rs`) and the
client dispatcher (`src/client/mod.rs`), together with proofs of the
specification's claims about them.

Conventions of the embedding:
* Rust `usize`/`u64` become `Nat`, `i64` becomes `Int`.
* Rust `String` becomes Lean `String`; `format!` becomes `++`.
* Fallible operations return `Except InfluxDbError _`.
* The asynchronous dispatcher is embedded as a pure function producing
  either an error or a `Request` value; constructing a `Request`
  represents handing the request to the transport (the network send), so
  an `.error` result models a dispatch that performs no network I/O.
-/

/-- `Timestamp` from `src/query/mod.rs`: a point in time at one of seven
resolutions.  `usize` payloads become `Nat`. -/
inductive Timestamp where
  | Now : Timestamp
  | Nanoseconds (n : Nat) : Timestamp
  | Microseconds (n : Nat) : Timestamp
  | Milliseconds (n : Nat) : Timestamp
  | Seconds (n : Nat) : Timestamp
  | Minutes (n : Nat) : Timestamp
  | Hours (n : Nat) : Timestamp
deriving DecidableEq

/-- `impl fmt::Display for Timestamp`: `Now` renders to the empty string,
every other variant renders its numeric payload in decimal. -/
def Timestamp.render : Timestamp → String
  | .Now => ""
  | .Nanoseconds ts
  | .Microseconds ts
  | .Milliseconds ts
  | .Seconds ts
  | .Minutes ts
  | .Hours ts => toString ts

/-- The `Type` enum from `src/query/write_query.rs` (renamed: `Type` is a
Lean keyword).  The `Float(f64)` payload is represented by the canonical
decimal text that Rust's `Display for f64` produces for it, since binary
floating-point formatting is outside this embedding; all other payloads
are embedded directly. -/
inductive Ty where
  | Boolean (b : Bool) : Ty
  | Float (rendered : String) : Ty
  | SignedInteger (i : Int) : Ty
  | UnsignedInteger (u : Nat) : Ty
  | Text (t : String) : Ty
deriving DecidableEq

/-- `impl Display for Type`: booleans and numbers print their canonical
form via `write!("{}", x)`; text prints wrapped in double quotes with no
escaping (`write!("\"{text}\"", ...)`). -/
def Ty.render : Ty → String
  | .Boolean x => toString x
  | .Float x => x
  | .SignedInteger x => toString x
  | .UnsignedInteger x => toString x
  | .Text text => "\"" ++ text ++ "\""

/-- The error enum of the crate (`InfluxDbError` / `Error`), with the
variants used by `src/query/write_query.rs` and `src/client/mod.rs`. -/
inductive InfluxDbError where
  | InvalidQueryError (error : String) : InfluxDbError
  | UrlConstructionError (error : String) : InfluxDbError
  | AuthenticationError : InfluxDbError
  | AuthorizationError : InfluxDbError
  | ConnectionError (error : String) : InfluxDbError
  | DatabaseError (error : String) : InfluxDbError
  | ProtocolError (error : String) : InfluxDbError
  | DeserializationError (error : String) : InfluxDbError
deriving DecidableEq

/-- `ValidQuery` from `src/query/mod.rs`: newtype around the rendered
wire text; `get` consumes it and returns the inner string. -/
structure ValidQuery where
  get : String
deriving DecidableEq

/-- `impl<T: Into<String>> From<T> for ValidQuery` (at a `String`
argument).  Named `fromString` because `from` is a Lean keyword. -/
def ValidQuery.fromString (string : String) : ValidQuery :=
  ⟨string⟩

/-- `impl PartialEq<String> for ValidQuery`: plain string equality with
the inner text. -/
def ValidQuery.eqString (q : ValidQuery) (other : String) : Bool :=
  q.get == other

/-- `impl PartialEq<&str> for ValidQuery`: plain string equality with the
inner text (a `&str` is also embedded as `String`). -/
def ValidQuery.eqStr (q : ValidQuery) (other : String) : Bool :=
  q.get == other

/-- `WriteQuery` from `src/query/write_query.rs`: measurement, insertion
ordered tag and field pairs (already rendered to text), and a timestamp. -/
structure WriteQuery where
  fields : List (String × String)
  tags : List (String × String)
  measurement : String
  timestamp : Timestamp
deriving DecidableEq

/-- `WriteQuery::new`: fresh builder with empty tag and field lists. -/
def WriteQuery.new (timestamp : Timestamp) (measurement : String) : WriteQuery :=
  { fields := [], tags := [], measurement := measurement, timestamp := timestamp }

/-- `WriteField::add_to_fields` for a plain value (`impl<T: Into<Type>>
WriteField for T`): pushes `(tag, value.to_string())`. -/
def addToFields (val : Ty) (tag : String) (fields : List (String × String)) :
    List (String × String) :=
  fields ++ [(tag, val.render)]

/-- `WriteField::add_to_fields` for `Option<T>`: a present value delegates
to the plain impl, an absent value pushes nothing. -/
def addToFieldsOpt (val : Option Ty) (tag : String) (fields : List (String × String)) :
    List (String × String) :=
  match val with
  | some v => addToFields v tag fields
  | none => fields

/-- `WriteQuery::add_field` instantiated at a plain (non-optional) value. -/
def WriteQuery.add_field (q : WriteQuery) (tag : String) (value : Ty) : WriteQuery :=
  { q with fields := addToFields value tag q.fields }

/-- `WriteQuery::add_field` instantiated at an `Option` value. -/
def WriteQuery.add_field_opt (q : WriteQuery) (tag : String) (value : Option Ty) : WriteQuery :=
  { q with fields := addToFieldsOpt value tag q.fields }

/-- `WriteQuery::add_tag`: pushes `(tag, value.to_string())` onto the tag
list. -/
def WriteQuery.add_tag (q : WriteQuery) (tag : String) (value : Ty) : WriteQuery :=
  { q with tags := q.tags ++ [(tag, value.render)] }

/-- `WriteQuery::get_precision`: the line-protocol precision token of the
builder's timestamp. -/
def WriteQuery.get_precision (q : WriteQuery) : String :=
  match q.timestamp with
  | .Now => ""
  | .Nanoseconds _ => "ns"
  | .Microseconds _ => "u"
  | .Milliseconds _ => "ms"
  | .Seconds _ => "s"
  | .Minutes _ => "m"
  | .Hours _ => "h"

/-- `Vec<String>::join(",")` as used by `build` on the rendered
`key=value` pair strings. -/
def joinPairs : List (String × String) → String
  | [] => ""
  | [(k, v)] => k ++ "=" ++ v
  | (k, v) :: p :: rest => k ++ "=" ++ v ++ "," ++ joinPairs (p :: rest)

/-- `impl Query for WriteQuery :: build` from `src/query/write_query.rs`:
fails when the field list is empty; otherwise renders
`measurement{tags} {fields}{time}` where the joined tag text gets a
leading comma when nonempty and the time part is empty for `Now` and
otherwise a space followed by the rendered timestamp. -/
def WriteQuery.build (q : WriteQuery) : Except InfluxDbError ValidQuery :=
  if q.fields.isEmpty then
    .error (.InvalidQueryError "fields cannot be empty")
  else
    let tags0 := joinPairs q.tags
    let tags := if tags0.isEmpty then tags0 else "," ++ tags0
    let fields := joinPairs q.fields
    let time :=
      match q.timestamp with
      | .Now => ""
      | t => " " ++ t.render
    .ok ⟨q.measurement ++ tags ++ " " ++ fields ++ time⟩

/-- Modelled from the spec: the file `src/query/read_query.rs` is not
under `src/` (only its callers are).  Spec §4.4: `create(rawText)` stores
the text verbatim. -/
structure ReadQuery where
  query : String
deriving DecidableEq

/-- Modelled from the spec: `ReadQuery::build` (§4.4) always succeeds,
returning the raw text unchanged. -/
def ReadQuery.build (q : ReadQuery) : Except InfluxDbError ValidQuery :=
  .ok ⟨q.query⟩

/-- `QueryTypes` from `src/query/mod.rs`: the closed union of the two
query kinds the dispatcher handles. -/
inductive QueryTypes where
  | Read (q : ReadQuery) : QueryTypes
  | Write (q : WriteQuery) : QueryTypes
deriving DecidableEq

/-- `build` dispatched through the `Query` trait on either query kind. -/
def QueryTypes.build : QueryTypes → Except InfluxDbError ValidQuery
  | .Read q => q.build
  | .Write q => q.build

/-- `InfluxDbAuthentication` from `src/client/mod.rs`. -/
structure InfluxDbAuthentication where
  username : String
  password : String
deriving DecidableEq

/-- `InfluxDbClient` from `src/client/mod.rs`: base URL, database name,
optional authentication. -/
structure InfluxDbClient where
  url : String
  database : String
  auth : Option InfluxDbAuthentication
deriving DecidableEq

/-- `InfluxDbClient::new`: client with no authentication configured. -/
def InfluxDbClient.new (url database : String) : InfluxDbClient :=
  { url := url, database := database, auth := none }

/-- `InfluxDbClient::with_auth`: sets the authentication pair. -/
def InfluxDbClient.with_auth (c : InfluxDbClient) (username password : String) :
    InfluxDbClient :=
  { c with auth := some { username := username, password := password } }

/-- `InfluxDbClient::database_name`. -/
def InfluxDbClient.database_name (c : InfluxDbClient) : String :=
  c.database

/-- `InfluxDbClient::database_url`. -/
def InfluxDbClient.database_url (c : InfluxDbClient) : String :=
  c.url

/-- `impl Into<Vec<(String, String)>> for &InfluxDbClient`: the base
request parameters, `db` first, then `u`/`p` when auth is configured. -/
def InfluxDbClient.intoParams (c : InfluxDbClient) : List (String × String) :=
  [("db", c.database)] ++
    (match c.auth with
     | none => []
     | some auth => [("u", auth.username), ("p", auth.password)])

/-- HTTP verb chosen by the dispatcher. -/
inductive Method where
  | Get : Method
  | Post : Method
deriving DecidableEq

/-- A `reqwest::Url` after successful parsing: the endpoint together with
its query parameters, to which `query_pairs_mut().append_pair` appends. -/
structure Url where
  endpoint : String
  params : List (String × String)
deriving DecidableEq

/-- `Url::query_pairs_mut().append_pair(k, v)`. -/
def Url.append_pair (u : Url) (k v : String) : Url :=
  { u with params := u.params ++ [(k, v)] }

/-- The HTTP request a successful dispatch hands to the transport; its
construction represents the network send. -/
structure Request where
  method : Method
  url : Url
  body : Option String
deriving DecidableEq

/-- Rust's `str::contains(pat)`: substring search, literal and
case-sensitive. -/
def strContains (s pat : String) : Bool :=
  (List.range (s.length + 1)).any fun i => pat.toList.isPrefixOf (s.toList.drop i)

/-- `InfluxDbClient::query` from `src/client/mod.rs`, up to the point the
request is handed to the transport.  `parseUrl` abstracts
`Url::parse_with_params` (URL syntax checking is an external
collaborator; on success the resulting `Url` carries the given endpoint
and parameters) and `fmtError` abstracts the crate error's `Display`
(the error module is not under `src/`); both are parameters of the
embedding.  A build failure returns at once with `InvalidQueryError`
before any `Request` exists, mirroring the early `return` before any
I/O. -/
def InfluxDbClient.query (parseUrl : String → List (String × String) → Except String Url)
    (fmtError : InfluxDbError → String) (c : InfluxDbClient) (q : QueryTypes) :
    Except InfluxDbError Request :=
  match q.build with
  | .error err => .error (.InvalidQueryError (fmtError err))
  | .ok query =>
    let basic_parameters := c.intoParams
    match q with
    | .Read _ =>
      let read_query := query.get
      match parseUrl (c.database_url ++ "/query") basic_parameters with
      | .error err => .error (.UrlConstructionError err)
      | .ok url =>
        let url := url.append_pair "q" read_query
        if strContains read_query "SELECT" || strContains read_query "SHOW" then
          .ok { method := .Get, url := url, body := none }
        else
          .ok { method := .Post, url := url, body := none }
    | .Write write_query =>
      match parseUrl (c.database_url ++ "/write") basic_parameters with
      | .error err => .error (.InvalidQueryError err)
      | .ok url =>
        let url := url.append_pair "precision" write_query.get_precision
        .ok { method := .Post, url := url, body := some query.get }

/-- An HTTP response as seen by the dispatcher's continuation: the status
code and the result of UTF-8 decoding the concatenated body bytes
(`none` models bytes that are not valid UTF-8). -/
structure Response where
  status : Nat
  body : Option String
deriving DecidableEq

/-- The response-interpretation chain of `InfluxDbClient::query`
(`src/client/mod.rs`, the `and_then` closures): status 401 maps to
`AuthorizationError` and 403 to `AuthenticationError` before the body is
read; then a body that is not UTF-8 maps to `DeserializationError`; then
a decoded body containing the quoted substring `"error"` maps to
`DatabaseError` wrapping the full body text; otherwise the body text is
returned as success. -/
def handleResponse (res : Response) : Except InfluxDbError String :=
  if res.status = 401 then
    .error .AuthorizationError
  else if res.status = 403 then
    .error .AuthenticationError
  else
    match res.body with
    | none => .error (.DeserializationError "response could not be converted to UTF-8")
    | some s =>
      if strContains s "\"error\"" then
        .error (.DatabaseError ("influxdb error: \"" ++ s ++ "\""))
      else
        .ok s

/-- One step of the chainable builder interface, used to state insertion
order properties over arbitrary call chains. -/
inductive BuilderOp where
  | tag (name : String) (value : Ty) : BuilderOp
  | field (name : String) (value : Ty) : BuilderOp
  | fieldOpt (name : String) (value : Option Ty) : BuilderOp
deriving DecidableEq

/-- Applies a chain of `add_tag` / `add_field` calls to a builder, in
order. -/
def applyOps (q : WriteQuery) : List BuilderOp → WriteQuery
  | [] => q
  | .tag n v :: rest => applyOps (q.add_tag n v) rest
  | .field n v :: rest => applyOps (q.add_field n v) rest
  | .fieldOpt n v :: rest => applyOps (q.add_field_opt n v) rest

/-- The tag pairs a call chain inserts, in insertion order, duplicates
kept. -/
def opsTags : List BuilderOp → List (String × String)
  | [] => []
  | .tag n v :: rest => (n, v.render) :: opsTags rest
  | .field _ _ :: rest => opsTags rest
  | .fieldOpt _ _ :: rest => opsTags rest

/-- The field pairs a call chain inserts, in insertion order, duplicates
kept; an absent optional value inserts nothing. -/
def opsFields : List BuilderOp → List (String × String)
  | [] => []
  | .tag _ _ :: rest => opsFields rest
  | .field n v :: rest => (n, v.render) :: opsFields rest
  | .fieldOpt n (some v) :: rest => (n, v.render) :: opsFields rest
  | .fieldOpt _ none :: rest => opsFields rest

/-- The §6 grammar of the spec, stated over a builder's state:
`measurement[,tag pairs] field pairs[ timestamp]`, the tag segment
comma-prefixed and omitted when no tags exist, the timestamp segment a
single trailing space plus the rendered value, omitted for `Now`. -/
def specLine (q : WriteQuery) : String :=
  q.measurement ++
    (if q.tags = [] then "" else "," ++ joinPairs q.tags) ++
    " " ++ joinPairs q.fields ++
    (if q.timestamp = .Now then "" else " " ++ q.timestamp.render)

theorem joinPairs_cons_isEmpty (p : String × String) (l : List (String × String)) :
    (joinPairs (p :: l)).isEmpty = false := by
  have h : ∃ t : String, joinPairs (p :: l) = p.1 ++ "=" ++ p.2 ++ t := by
    cases l with
    | nil => exact ⟨"", by simp [joinPairs]⟩
    | cons q rest =>
        exact ⟨"," ++ joinPairs (q :: rest), by simp [joinPairs, String.append_assoc]⟩
  obtain ⟨t, ht⟩ := h
  rw [ht]
  cases hb : (p.1 ++ "=" ++ p.2 ++ t).isEmpty with
  | false => rfl
  | true =>
      have he := (String.isEmpty_iff _).mp hb
      have hd : (p.1 ++ "=" ++ p.2 ++ t).data = [] := by rw [he]
      simp [String.data_append] at hd

theorem build_eq_specLine (q : WriteQuery) (h : q.fields ≠ []) :
    q.build = Except.ok ⟨specLine q⟩ := by
  have hfe : q.fields.isEmpty = false := by
    cases hf : q.fields with
    | nil => exact absurd hf h
    | cons a l => rfl
  have htag : (if (joinPairs q.tags).isEmpty then joinPairs q.tags
        else "," ++ joinPairs q.tags) =
      (if q.tags = [] then "" else "," ++ joinPairs q.tags) := by
    cases q.tags with
    | nil => rfl
    | cons p l => simp [joinPairs_cons_isEmpty]
  have htime : (match q.timestamp with
        | Timestamp.Now => ""
        | t => " " ++ t.render) =
      (if q.timestamp = Timestamp.Now then "" else " " ++ q.timestamp.render) := by
    cases q.timestamp <;> simp [Timestamp.render]
  simp only [WriteQuery.build, hfe, Bool.false_eq_true, if_false, specLine, htag, htime]

theorem applyOps_state (ops : List BuilderOp) (q : WriteQuery) :
    (applyOps q ops).fields = q.fields ++ opsFields ops ∧
    (applyOps q ops).tags = q.tags ++ opsTags ops ∧
    (applyOps q ops).measurement = q.measurement ∧
    (applyOps q ops).timestamp = q.timestamp := by
  induction ops generalizing q with
  | nil => simp [applyOps, opsFields, opsTags]
  | cons op rest ih =>
    cases op with
    | tag n v =>
        simpa [applyOps, opsFields, opsTags, WriteQuery.add_tag, List.append_assoc]
          using ih (q.add_tag n v)
    | field n v =>
        simpa [applyOps, opsFields, opsTags, WriteQuery.add_field, addToFields,
          List.append_assoc] using ih (q.add_field n v)
    | fieldOpt n v =>
        cases v with
        | none =>
            simpa [applyOps, opsFields, opsTags, WriteQuery.add_field_opt, addToFieldsOpt]
              using ih (q.add_field_opt n none)
        | some w =>
            simpa [applyOps, opsFields, opsTags, WriteQuery.add_field_opt, addToFieldsOpt,
              addToFields, List.append_assoc] using ih (q.add_field_opt n (some w))

/-- C2: for every `WriteQuery` whose field list is empty, however many
tags were added, `build()` fails with the `InvalidQueryError`. -/
theorem build_fails_on_empty_fields (q : WriteQuery) (h : q.fields = []) :
    q.build = Except.error (InfluxDbError.InvalidQueryError "fields cannot be empty") := by
  simp [WriteQuery.build, h]

/-- Witness for C2 at the spec's scenario: a builder with one tag and no
fields fails to build. -/
theorem build_fails_on_empty_fields_witness :
    ((WriteQuery.new (Timestamp.Hours 11) "weather").add_tag "season" (Ty.Text "summer")).fields
        = [] ∧
    ((WriteQuery.new (Timestamp.Hours 11) "weather").add_tag "season" (Ty.Text "summer")).build
        = Except.error (InfluxDbError.InvalidQueryError "fields cannot be empty") :=
  ⟨rfl, build_fails_on_empty_fields _ rfl⟩

/-- C6: `get_precision` returns the empty token for `Now` and the exact
token for each other variant, independent of the numeric value. -/
theorem get_precision_tokens (fs ts : List (String × String)) (m : String) (n : Nat) :
    (WriteQuery.mk fs ts m Timestamp.Now).get_precision = "" ∧
    (WriteQuery.mk fs ts m (Timestamp.Nanoseconds n)).get_precision = "ns" ∧
    (WriteQuery.mk fs ts m (Timestamp.Microseconds n)).get_precision = "u" ∧
    (WriteQuery.mk fs ts m (Timestamp.Milliseconds n)).get_precision = "ms" ∧
    (WriteQuery.mk fs ts m (Timestamp.Seconds n)).get_precision = "s" ∧
    (WriteQuery.mk fs ts m (Timestamp.Minutes n)).get_precision = "m" ∧
    (WriteQuery.mk fs ts m (Timestamp.Hours n)).get_precision = "h" :=
  ⟨rfl, rfl, rfl, rfl, rfl, rfl, rfl⟩

/-- C7: `add_field` with an absent optional value returns the builder
unchanged; with a present value it appends exactly the one rendered
entry. -/
theorem add_field_optional (q : WriteQuery) (n : String) (v : Ty) :
    q.add_field_opt n none = q ∧
    q.add_field_opt n (some v) = { q with fields := q.fields ++ [(n, v.render)] } :=
  ⟨rfl, rfl⟩

/-- C8: text renders as a double quote, the text unchanged character for
character with no escaping, and a closing double quote; booleans,
integers and (pre-rendered) floats render in canonical unquoted form. -/
theorem ty_render_forms (t : String) (b : Bool) (i : Int) (u : Nat) (s : String) :
    Ty.render (Ty.Text t) = "\"" ++ t ++ "\"" ∧
    (Ty.render (Ty.Text t)).data = '"' :: (t.data ++ ['"']) ∧
    Ty.render (Ty.Boolean b) = (if b then "true" else "false") ∧
    Ty.render (Ty.SignedInteger i) = toString i ∧
    Ty.render (Ty.UnsignedInteger u) = toString u ∧
    Ty.render (Ty.Float s) = s := by
  refine ⟨rfl, ?_, ?_, rfl, rfl, rfl⟩
  · simp [Ty.render, String.data_append]
  · cases b <;> rfl

/-- C9: the `ValidQuery` built from a string compares equal to that
string through both `PartialEq` impls (`&str` and `String`). -/
theorem validQuery_eq_both (s : String) :
    (ValidQuery.fromString s).eqStr s = true ∧
    (ValidQuery.fromString s).eqString s = true := by
  constructor <;> simp [ValidQuery.fromString, ValidQuery.eqStr, ValidQuery.eqString]

/-- C10: `with_auth` leaves `url` and `database` unchanged, sets `auth`
to exactly the given pair, and a second call replaces the pair. -/
theorem with_auth_frame (c : InfluxDbClient) (u p u' p' : String) :
    (c.with_auth u p).url = c.url ∧
    (c.with_auth u p).database = c.database ∧
    (c.with_auth u p).auth = some ⟨u, p⟩ ∧
    ((c.with_auth u p).with_auth u' p').auth = some ⟨u', p'⟩ :=
  ⟨rfl, rfl, rfl, rfl⟩

/-- C1: for every builder call chain inserting at least one field,
`build()` succeeds and renders the measurement, then the comma-prefixed
tag segment (omitted entirely when no tags exist), a space, the
comma-joined field pairs, and a single trailing space plus the rendered
timestamp (omitted entirely for `Now`); tag and field pairs appear in
exactly insertion order with duplicates kept. -/
theorem build_grammar_of_ops (ts : Timestamp) (meas : String) (ops : List BuilderOp)
    (h : opsFields ops ≠ []) :
    (applyOps (WriteQuery.new ts meas) ops).build =
      Except.ok ⟨meas ++
        (if opsTags ops = [] then "" else "," ++ joinPairs (opsTags ops)) ++
        " " ++ joinPairs (opsFields ops) ++
        (if ts = Timestamp.Now then "" else " " ++ ts.render)⟩ := by
  obtain ⟨hf, ht, hm, hts⟩ := applyOps_state ops (WriteQuery.new ts meas)
  have hf' : (applyOps (WriteQuery.new ts meas) ops).fields ≠ [] := by
    rw [hf]
    simpa [WriteQuery.new] using h
  rw [build_eq_specLine _ hf', specLine, hf, ht, hm, hts]
  simp [WriteQuery.new]

/-- Witness for C1 at the spec's full scenario: one field and two tags at
`Hours 11` render to the expected line. -/
theorem build_grammar_of_ops_witness :
    opsFields [BuilderOp.field "temperature" (Ty.SignedInteger 82),
        BuilderOp.tag "location" (Ty.Text "us-midwest"),
        BuilderOp.tag "season" (Ty.Text "summer")] ≠ [] ∧
    (applyOps (WriteQuery.new (Timestamp.Hours 11) "weather")
        [BuilderOp.field "temperature" (Ty.SignedInteger 82),
         BuilderOp.tag "location" (Ty.Text "us-midwest"),
         BuilderOp.tag "season" (Ty.Text "summer")]).build =
      Except.ok ⟨"weather,location=\"us-midwest\",season=\"summer\" temperature=82 11"⟩ :=
  ⟨by decide, by rw [build_grammar_of_ops _ _ _ (by decide)]; rfl⟩

/-- C4: when `build()` fails, dispatch returns at once with an
`InvalidQueryError` wrapping the formatted build error; no `Request` is
produced, so no network I/O occurs, for any URL parser and error
formatter. -/
theorem query_build_failure_short_circuit
    (parseUrl : String → List (String × String) → Except String Url)
    (fmtError : InfluxDbError → String) (c : InfluxDbClient) (q : QueryTypes)
    (e : InfluxDbError) (h : q.build = Except.error e) :
    c.query parseUrl fmtError q = Except.error (InfluxDbError.InvalidQueryError (fmtError e)) := by
  simp [InfluxDbClient.query, h]

/-- Witness for C4: dispatching a fieldless write query fails with
`InvalidQueryError` under a concrete URL parser and error formatter. -/
theorem query_build_failure_short_circuit_witness :
    (QueryTypes.Write (WriteQuery.new Timestamp.Now "m")).build =
      Except.error (InfluxDbError.InvalidQueryError "fields cannot be empty") ∧
    (InfluxDbClient.new "http://localhost:8086" "test").query
        (fun e ps => Except.ok ⟨e, ps⟩) (fun _ => "fields cannot be empty")
        (QueryTypes.Write (WriteQuery.new Timestamp.Now "m")) =
      Except.error (InfluxDbError.InvalidQueryError "fields cannot be empty") :=
  ⟨rfl, query_build_failure_short_circuit _ _ _ _ _ rfl⟩

/-- C5: a successfully dispatched read query uses GET exactly when its
rendered text contains the literal substring SELECT or SHOW
(case-sensitive), and POST otherwise; a successfully dispatched write
query always uses POST. -/
theorem query_verb_selection
    (parseUrl : String → List (String × String) → Except String Url)
    (fmtError : InfluxDbError → String) (c : InfluxDbClient) (q : QueryTypes)
    (req : Request) (h : c.query parseUrl fmtError q = Except.ok req) :
    (match q with
     | .Read r => req.method =
        (if strContains r.query "SELECT" || strContains r.query "SHOW" then
          Method.Get
        else
          Method.Post)
     | .Write _ => req.method = Method.Post) := by
  cases q with
  | Read r =>
      simp only [InfluxDbClient.query, QueryTypes.build, ReadQuery.build] at h
      cases hp : parseUrl (c.database_url ++ "/query") c.intoParams with
      | error e =>
          rw [hp] at h
          exact absurd h (by simp)
      | ok url =>
          rw [hp] at h
          cases hsel : (strContains r.query "SELECT" || strContains r.query "SHOW") with
          | true =>
              rw [hsel] at h
              simp only [if_true] at h
              cases h
              simp [hsel]
          | false =>
              rw [hsel] at h
              simp only [Bool.false_eq_true, if_false] at h
              cases h
              simp [hsel]
  | Write w =>
      cases hb : w.build with
      | error e =>
          simp only [InfluxDbClient.query, QueryTypes.build, hb] at h
          exact absurd h (by simp)
      | ok vq =>
          simp only [InfluxDbClient.query, QueryTypes.build, hb] at h
          cases hp : parseUrl (c.database_url ++ "/write") c.intoParams with
          | error e =>
              rw [hp] at h
              exact absurd h (by simp)
          | ok url =>
              rw [hp] at h
              cases h
              rfl

/-- Witness for C5: a concrete SELECT read query dispatches via GET. -/
theorem query_verb_selection_witness :
    (InfluxDbClient.new "http://localhost:8086" "test").query
        (fun e ps => Except.ok ⟨e, ps⟩) (fun _ => "x")
        (QueryTypes.Read ⟨"SELECT * FROM weather"⟩) =
      Except.ok ⟨Method.Get,
        ⟨"http://localhost:8086/query", [("db", "test"), ("q", "SELECT * FROM weather")]⟩,
        none⟩ ∧
    (⟨Method.Get,
        ⟨"http://localhost:8086/query", [("db", "test"), ("q", "SELECT * FROM weather")]⟩,
        none⟩ : Request).method = Method.Get := by
  constructor
  · rfl
  · have h2 := query_verb_selection (fun e ps => Except.ok ⟨e, ps⟩) (fun _ => "x")
      (InfluxDbClient.new "http://localhost:8086" "test")
      (QueryTypes.Read ⟨"SELECT * FROM weather"⟩)
      ⟨Method.Get,
        ⟨"http://localhost:8086/query", [("db", "test"), ("q", "SELECT * FROM weather")]⟩,
        none⟩ (by rfl)
    rw [h2]
    rfl

/-- Counterexample to C3: a 401 response whose body does contain the
quoted substring "error" yields `AuthorizationError`, not a `Database`
error — the status check runs before the body is scanned, so the claim
does not hold regardless of the HTTP status code. -/
theorem handleResponse_status_counterexample :
    strContains "some \"error\" text" "\"error\"" = true ∧
    handleResponse ⟨401, some "some \"error\" text"⟩ =
      Except.error InfluxDbError.AuthorizationError := by
  exact ⟨by decide, rfl⟩

/-- C3 (amended): for every response whose status is neither 401 nor 403
and whose body decodes as text containing the quoted substring "error",
the dispatcher yields a `Database` error wrapping the full body text. -/
theorem handleResponse_database_error (res : Response) (s : String)
    (h1 : res.status ≠ 401) (h2 : res.status ≠ 403) (hb : res.body = some s)
    (he : strContains s "\"error\"" = true) :
    handleResponse res =
      Except.error (InfluxDbError.DatabaseError ("influxdb error: \"" ++ s ++ "\"")) := by
  simp [handleResponse, h1, h2, hb, he]

/-- Witness for C3 (amended): a 500 response whose body holds the quoted
"error" marker becomes a `Database` error wrapping the body. -/
theorem handleResponse_database_error_witness :
    ((500 : Nat) ≠ 401 ∧ (500 : Nat) ≠ 403 ∧
      strContains "a \"error\" b" "\"error\"" = true) ∧
    handleResponse ⟨500, some "a \"error\" b"⟩ =
      Except.error (InfluxDbError.DatabaseError
        ("influxdb error: \"" ++ "a \"error\" b" ++ "\"")) :=
  ⟨⟨by decide, by decide, by decide⟩,
    handleResponse_database_error _ _ (by decide) (by decide) rfl (by decide)⟩
